import Mathlib

/-!
Verification of the coTestPilot AI page-checking extension (Playwright and
Selenium bindings).  The Lean definitions below are a shallow embedding of
`src/Playwright/playwright_sync_cotestpilot/__init__.py` and
`src/Selenium/4/py/selenium_cotestpilot/__init__.py`: Python dictionaries and
JSON documents become the inductive `JVal`, Python exceptions become the
inductive `PyExc` carried in `Except`, and every external effect (screenshot
capture, file system reads/writes, the outbound HTTP call) is supplied through
an explicit environment record so the control flow of the Python functions can
be reproduced as pure Lean functions.
-/

/-- JSON values, covering Python objects produced by `json.load`/`json.loads`
and the `check_result` dictionaries built in `check()`. -/
inductive JVal where
  | null
  | bool (b : Bool)
  | num (n : Int)
  | str (s : String)
  | arr (elems : List JVal)
  | obj (fields : List (String × JVal))

/-- Python exceptions that appear in the two source files. -/
inductive PyExc where
  | screenshotError (msg : String)   -- raised by page.screenshot / get_screenshot_as_file
  | osError (msg : String)           -- filesystem errors (open, makedirs, write)
  | valueError (msg : String)
  | typeError (msg : String)
  | runtimeError (msg : String)
  | requestError (msg : String)      -- requests.exceptions.RequestException and subclasses
  | jsonDecodeError (msg : String)
  | keyError (msg : String)
  | nameError (name : String)        -- reference to an undefined global name
  | unboundLocalError (name : String) -- reference to a local before assignment
deriving DecidableEq, Repr

/-- str(e) as used in the logging / error payloads. -/
def PyExc.msg : PyExc → String
  | .screenshotError m => m
  | .osError m => m
  | .valueError m => m
  | .typeError m => m
  | .runtimeError m => m
  | .requestError m => m
  | .jsonDecodeError m => m
  | .keyError m => m
  | .nameError n => "name " ++ n ++ " is not defined"
  | .unboundLocalError n => "local variable " ++ n ++ " referenced before assignment"

/-- One entry of the `testers.json` catalog: `{name, biography}`. -/
structure Tester where
  name : String
  biography : String
deriving DecidableEq, Repr

/-- Python `str.lower()` restricted to its ASCII behaviour (the catalog names
used by the defaulting logic are ASCII). -/
def lowerStr (s : String) : String := ⟨s.data.map Char.toLower⟩

/-- Python substring test `needle in hay` on character lists. -/
def hasSubstr : List Char → List Char → Bool
  | n, [] => n.isEmpty
  | n, c :: t => List.isPrefixOf n (c :: t) || hasSubstr n t

/-- The filter predicate of the non-default selection branch:
`any(requested.lower() in t[ "name" ].lower() for requested in testers)`. -/
def matchesRequested (requested : List String) (t : Tester) : Bool :=
  requested.any (fun r => hasSubstr (lowerStr r).data (lowerStr t.name).data)

/-- Tester selection from `check()` (Playwright lines 322-335, Selenium lines
319-331).  `none` means the Python argument `testers=None`. -/
def selectTesters (catalog : List Tester) (testers : Option (List String)) : List Tester :=
  match testers with
  | none => catalog.filter (fun t => lowerStr t.name == "jason")
  | some requested =>
    let selected := catalog.filter (matchesRequested requested)
    if selected.isEmpty then
      catalog.filter (fun t => lowerStr t.name == "jason")
    else
      selected

/-- Module-level initialisation of `api_key` (Playwright lines 536-540,
Selenium lines 578-582):

    api_key = os.getenv('OPENAI_API_KEY')
    if not api_key:
        alert('jj')
        logger.warning(...)

`os.getenv` returns `None` when the variable is unset; the empty string is
falsy as well.  The name `alert` is not defined anywhere in either module and
is not brought in by any import line, so evaluating `alert('jj')` raises
`NameError` while the module loads. -/
def moduleInitApiKey (envVar : Option String) : Except PyExc (Option String) :=
  match envVar with
  | none => .error (.nameError "alert")
  | some k => if k = "" then .error (.nameError "alert") else .ok (some k)

/-- Python truthiness of an optional string (None and "" are falsy). -/
def pyTruthy : Option String → Bool
  | none => false
  | some s => s ≠ ""

/-- os.path.join for the one-level joins used here. -/
def joinPath (dir name : String) : String := dir ++ "/" ++ name

/-- The result file name chosen in `check()`:
`f"{label}_{timestamp_str}_ai.json" if label else f"ai_checks_{timestamp_str}.json"`. -/
def outputFileName (label : Option String) (ts : String) : String :=
  match label with
  | some l => l ++ "_" ++ ts ++ "_ai.json"
  | none => "ai_checks_" ++ ts ++ ".json"

/-- The fixed glob used by `ai_report`:
`glob.glob(os.path.join(output_dir, "ai_*.json"))`.  A file name matches the
pattern `ai_*.json` exactly when it decomposes as `"ai_" ++ mid ++ ".json"`,
i.e. it starts with `ai_`, ends with `.json` and is at least 8 characters
long. -/
def matchesAiGlob (name : String) : Bool :=
  List.isPrefixOf "ai_".data name.data
    && List.isSuffixOf ".json".data name.data
    && decide (8 ≤ name.data.length)

/-- RateLimiter (Playwright lines 200-210, Selenium lines 205-215), embedded
over an idealised real-time clock represented by rational time stamps.  A call
to `wait` is parameterised by the value `now` returned by the first
`time.time()` reading, by `oversleep ≥ 0` (the amount by which
`time.sleep` exceeds the requested duration) and by `gap ≥ 0` (the delay
between waking and the second `time.time()` reading).  The returned rational
is the time at which `self.last_call = time.time()` runs, which is the moment
`wait()` returns. -/
structure RateLimiter where
  min_interval : ℚ
  last_call : ℚ

/-- `RateLimiter.__init__` with `last_call = 0.0`. -/
def RateLimiter.init (calls_per_second : ℚ) : RateLimiter :=
  { min_interval := 1 / calls_per_second, last_call := 0 }

/-- One execution of `wait()`. -/
def RateLimiter.wait (rl : RateLimiter) (now oversleep gap : ℚ) : RateLimiter × ℚ :=
  let elapsed := now - rl.last_call
  let ret := if elapsed < rl.min_interval
             then now + (rl.min_interval - elapsed) + oversleep + gap
             else now + gap
  ({ rl with last_call := ret }, ret)

/-- A sequence of `wait()` calls by a single caller; each triple is the
`(now, oversleep, gap)` instrumentation of one call, and the result collects
the return times in order. -/
def RateLimiter.runWaits (rl : RateLimiter) : List (ℚ × ℚ × ℚ) → List ℚ
  | [] => []
  | (now, o, g) :: rest =>
    let s := rl.wait now o g
    s.2 :: s.1.runWaits rest

/-- Outcome of the HTTP exchange inside one `chat_vision` invocation.
`unreachable` covers `requests` transport failures, `badStatus` the
`raise_for_status()` path (both are `RequestException`s); `ok` carries the
outcome of extracting `choices[0].message.content`, stripping Markdown fences
and running `json.loads` on it — that extraction chain operates on an
untrusted remote payload and is abstracted here as its final `Except`
outcome. -/
inductive VisionNet where
  | unreachable (msg : String)
  | badStatus (code : Nat) (msg : String)
  | ok (content : Except String JVal)

/-- What `chat_vision` hands back to its caller: either the value returned by
`json.loads(cleaned_content)`, or the literal Python string `"[]"` produced by
its two `except` handlers. -/
inductive VisionOut where
  | parsed (v : JVal)
  | fallback

/-- The `try` body of `chat_vision` (Playwright lines 600-661, Selenium lines
642-703).  The error channel also records whether the HTTP POST had been
issued before the exception was raised; validation failures happen before any
network call. -/
def chat_visionBody (api_key : Option String) (prompt base64_image : String)
    (net : VisionNet) : Except (PyExc × Bool) (JVal × Bool) :=
  if pyTruthy api_key = false then
    .error (.runtimeError "OPENAI_API_KEY environment variable must be set", false)
  else if base64_image = "" then
    .error (.valueError "base64_image cannot be empty", false)
  else if prompt = "" then
    .error (.valueError "prompt cannot be empty", false)
  else
    match net with
    | .unreachable m => .error (.requestError m, true)
    | .badStatus _ m => .error (.requestError m, true)
    | .ok (.error m) => .error (.jsonDecodeError m, true)
    | .ok (.ok v) => .ok (v, true)

/-- `chat_vision` as its callers observe it: the two `except` clauses catch
every exception raised in the body and return the string `"[]"`, so the
function returns normally on every input.  The boolean records whether a
network request was made. -/
def chat_visionRun (api_key : Option String) (prompt base64_image : String)
    (net : VisionNet) : VisionOut × Bool :=
  match chat_visionBody api_key prompt base64_image net with
  | .ok (v, called) => (.parsed v, called)
  | .error (_, called) => (.fallback, called)

/-- `chat_vision` with an explicit exception channel, to make "no exception
escapes to the caller" a statement about the code rather than about a type:
the result is `.ok` on every input because of the catch-all handlers. -/
def chat_vision (api_key : Option String) (prompt base64_image : String)
    (net : VisionNet) : Except PyExc (VisionOut × Bool) :=
  .ok (chat_visionRun api_key prompt base64_image net)

/-- The retry loop wrapped around each `chat_vision` call in `check()`
(Playwright lines 396-408):

    retries = DEFAULT_CONFIG['max_retries']
    while retries > 0:
        try:
            vision_response = chat_vision(...)
            break
        except Exception as e:
            retries -= 1
            if retries == 0:
                raise
            logger.warning(...)
            time.sleep(2)

The first `Nat` argument is the initial `retries` value, the second numbers
the attempts.  The result carries the escaping outcome, the number of times
`chat_vision` was invoked, and the list of `time.sleep` durations (always 2).
With `retries = 0` the loop body never runs and the use of `vision_response`
just after the loop raises `UnboundLocalError`. -/
def retryLoop {α : Type} (attempt : Nat → Except PyExc α) :
    Nat → Nat → Except PyExc α × Nat × List Nat
  | 0, _ => (.error (.unboundLocalError "vision_response"), 0, [])
  | 1, idx => (attempt idx, 1, [])
  | n + 2, idx =>
    match attempt idx with
    | .ok v => (.ok v, 1, [])
    | .error _ =>
      let r := retryLoop attempt (n + 1) (idx + 1)
      (r.1, r.2.1 + 1, 2 :: r.2.2)

/-- The per-tester vision prompt built in `check()` (Playwright lines 346-391,
Selenium lines 342-387), transcribed from the f-string with `{...}`
placeholders replaced by concatenation. -/
def visionPrompt (url page_text : String) (tester : Tester) (output : String)
    (custom_prompt : Option String) : String :=
  "Please analyze this webpage for any errors, issues, or problems.\n\nIMPORTANT: Only return high-confidence issues. It is perfectly acceptable to return no issues if none are found with high confidence.\nFor each issue found, include a confidence score between 0 and 1, where:\n- 1.0 means absolutely certain this is an issue\n- 0.8-0.9 means very confident\n- 0.7-0.8 means reasonably confident\n- Below 0.7 should not be reported\n\nSeverity levels (0-3):\n0 = Cosmetic: Minor visual or text issues that don\x27t impact functionality or understanding\n1 = Low: Issues that cause minor inconvenience but don\x27t prevent core functionality\n2 = Medium: Issues that significantly impact user experience or partially break functionality\n3 = High: Critical issues that prevent core functionality or severely impact user experience or the business.\n\nPage URL: "
  ++ url
  ++ "\nPage Text Content:\n"
  ++ page_text
  ++ "\n\nYou are "
  ++ tester.name
  ++ ", and this is your expertise and background:\n"
  ++ tester.biography
  ++ "\n\nPlease identify any:\n1. Visual errors or layout issues\n2. Content errors or inconsistencies\n3. Functionality problems that are visible\n4. Any other issues that might affect user experience\n\nOutput format: "
  ++ output
  ++ "\n\nExample format:\n[\n    \x7b\n        \"title\": \"Broken image link\",\n        \"severity\": \"high\",\n        \"description\": \"Image on homepage fails to load\",\n        \"why_fix\": \"Impacts user experience and site professionalism\",\n        \"how_to_fix\": \"Update image source URL or replace missing image\",\n        \"confidence\": 0.95,\n        \"related_context_if_any\": \"The image is a logo and its url is \x27https://www.google.com/images/branding/googlelogo/2x/googlelogo_light_color_272x92dp.png\x27 and is used in the header\"\n    \x7d\n]\n\nreturn only the JSON array, no other text or comments.\n\n"
  ++ (match custom_prompt with
      | some s => if s = "" then "" else s
      | none => "")

/-- One element of `all_findings`: the dictionary appended for each tester. -/
structure TesterResult where
  tester : String
  biography : String
  issues : VisionOut

/-- The dataclass returned by `check()`. -/
structure CheckResult where
  timestamp : String
  url : String
  bugs : List JVal
  raw_response : JVal
  profile : String
  output_file : Option String

/-- What `open(path)` + `json.load` finds at a path: no file
(`FileNotFoundError`), an unparsable file (`json.JSONDecodeError`), or a JSON
document. -/
inductive FileContent where
  | absent
  | malformed
  | json (v : JVal)

/-- The arguments of `check()` that influence the modelled behaviour.
`customRulesIsDict = none` is Python `custom_rules=None`; `some b` means a
value was supplied and `b` is `isinstance(custom_rules, dict)`. -/
structure CheckArgs where
  profile_search : Option String
  customRulesIsDict : Option Bool
  custom_prompt : Option String
  output : String
  testers : Option (List String)
  label : Option String
  save_to_file : Bool
  output_dir : Option String

/-- The ambient state and effect outcomes one `check()` call runs against. -/
structure CheckEnv where
  catalog : List Tester                    -- the module-level TESTERS list
  maxRetries : Nat                         -- DEFAULT_CONFIG['max_retries']
  apiKey : Option String                   -- the module-level api_key
  screenshotCapture : Option PyExc         -- os.makedirs("screenshots") + screenshot call
  readShot : Except PyExc String           -- reading the screenshot back as base64
  pageUrl : String                         -- self.url / self.current_url
  evalText : Except PyExc String           -- body text extraction
  net : Nat → Nat → VisionNet              -- HTTP outcome for (tester index, attempt index)
  jsonLoads : String → Except String JVal  -- json.loads on model-produced strings
  tsShot : String                          -- datetime.now() at screenshot naming
  tsSave : String                          -- datetime.now() at result-file naming
  tsRet : String                           -- datetime.now() at CheckResult construction
  makedirsOut : Option PyExc               -- os.makedirs(output_dir)
  readFs : String → FileContent            -- reading an existing results file
  writeOut : Option PyExc                  -- open(output_file_path, 'w') + json.dump

/-- `f"screenshots/check_{timestamp}.png"`. -/
def screenshotPath (ts : String) : String := "screenshots/check_" ++ ts ++ ".png"

/-- The per-tester analysis loop of `check()` (Playwright lines 344-419):
rate-limiter wait, retry loop around `chat_vision`, and appending one
dictionary per tester to `all_findings`.  An exception escaping the retry
loop aborts the remaining testers. -/
def runTesters (env : CheckEnv) (args : CheckArgs) (img page_text : String) :
    List Tester → Nat → Except PyExc (List TesterResult)
  | [], _ => .ok []
  | t :: rest, idx =>
    let prompt := visionPrompt env.pageUrl page_text t args.output args.custom_prompt
    let r := retryLoop (fun k => chat_vision env.apiKey prompt img (env.net idx k))
      env.maxRetries 0
    match r.1 with
    | .error e => .error e
    | .ok (v, _) =>
      match runTesters env args img page_text rest (idx + 1) with
      | .error e => .error e
      | .ok frs => .ok ({ tester := t.name, biography := t.biography, issues := v } :: frs)

/-- Python `all_issues.extend(x)`: lists are appended element-wise, strings
yield their characters, dictionaries their keys; non-iterables raise
`TypeError`. -/
def extendPy (acc : List JVal) : JVal → Except PyExc (List JVal)
  | .arr l => .ok (acc ++ l)
  | .str s => .ok (acc ++ s.data.map (fun c => JVal.str ⟨[c]⟩))
  | .obj fields => .ok (acc ++ fields.map (fun f => JVal.str f.1))
  | _ => .error (.typeError "argument is not iterable")

/-- The aggregation loop of `check()` (Playwright lines 430-440): for each
tester result, a string `issues` payload is re-parsed with `json.loads`
(`"[]"`, the `chat_vision` fallback, parses to the empty list); a
`JSONDecodeError` or `KeyError` is caught, logged, and that tester is
dropped, while any other exception (e.g. `TypeError` from `extend`)
propagates. -/
def aggregateIssues (jl : String → Except String JVal) :
    List TesterResult → List JVal → Except PyExc (List JVal)
  | [], acc => .ok acc
  | tr :: rest, acc =>
    match tr.issues with
    | .fallback => aggregateIssues jl rest acc
    | .parsed (.str s) =>
      match jl s with
      | .error _ => aggregateIssues jl rest acc
      | .ok v =>
        match extendPy acc v with
        | .error e => .error e
        | .ok acc2 => aggregateIssues jl rest acc2
    | .parsed v =>
      match extendPy acc v with
      | .error e => .error e
      | .ok acc2 => aggregateIssues jl rest acc2

/-- The `issues` entry as it is serialised: the parsed JSON value, or the
fallback string. -/
def VisionOut.toJson : VisionOut → JVal
  | .parsed v => v
  | .fallback => .str "[]"

/-- One element of the serialised `testers_results`. -/
def testerResultJson (tr : TesterResult) : JVal :=
  .obj [("tester", .str tr.tester), ("biography", .str tr.biography),
        ("issues", tr.issues.toJson)]

/-- The `check_result` dictionary (Playwright lines 422-427). -/
def mkCheckRecord (ts url shot : String) (frs : List TesterResult) : JVal :=
  .obj [("timestamp", .str ts), ("url", .str url), ("screenshot", .str shot),
        ("testers_results", .arr (frs.map testerResultJson))]

/-- The `if output_dir:` step shared by both bindings: create the directory
and produce `output_file_path`, which stays `None` when `output_dir` is falsy. -/
def resolveOutPath (env : CheckEnv) (args : CheckArgs) (name : String) :
    Except PyExc (Option String) :=
  if pyTruthy args.output_dir then
    match env.makedirsOut with
    | some e => .error e
    | none => .ok (some (joinPath (args.output_dir.getD "") name))
  else .ok none

/-- The persistence step of the Playwright binding (lines 443-466): existing
results are loaded from `output_file` — the bare file name resolved against
the current working directory — while the new array is written to
`output_file_path` under `output_dir`.  The error channel records the value
of the local `output_file_path` at the moment the exception is raised (it is
assigned `None` at line 443, before any failure inside this step). -/
def savePlaywright (env : CheckEnv) (args : CheckArgs) (record : JVal) :
    Except (PyExc × Option String) (Option String × Option (String × JVal)) :=
  if args.save_to_file then
    let name := outputFileName args.label env.tsSave
    match resolveOutPath env args name with
    | .error e => .error (e, none)
    | .ok ofp =>
      let existing : List JVal :=
        match env.readFs name with
        | .absent => []
        | .malformed => []
        | .json (.arr l) => l
        | .json v => [v]
      match ofp with
      | none => .error (.typeError "expected str, bytes or os.PathLike object, not NoneType", none)
      | some p =>
        match env.writeOut with
        | some e => .error (e, some p)
        | none => .ok (some p, some (p, .arr (existing ++ [record])))
  else
    .ok (none, none)

/-- The persistence step of the Selenium binding (lines 433-444): no existing
file is consulted; the single `check_result` dictionary is dumped as-is to
`output_file_path`. -/
def saveSelenium (env : CheckEnv) (args : CheckArgs) (record : JVal) :
    Except PyExc (Option String × Option (String × JVal)) :=
  if args.save_to_file then
    let name := outputFileName args.label env.tsSave
    match resolveOutPath env args name with
    | .error e => .error e
    | .ok none => .error (.typeError "expected str, bytes or os.PathLike object, not NoneType")
    | .ok (some p) =>
      match env.writeOut with
      | some e => .error e
      | none => .ok (some p, some (p, record))
  else
    .ok (none, none)

/-- The `try` body of the Playwright `check()` (lines 295-486).  The error
channel pairs the escaping exception with the state of the local
`output_file_path` at the moment it was raised: `none` means the exception
was raised before the assignment `output_file_path = None` at line 443 (the
local is unbound), `some v` means the local held `v`. -/
def checkBodyP (env : CheckEnv) (args : CheckArgs) :
    Except (PyExc × Option (Option String)) (CheckResult × Option (String × JVal)) :=
  match env.screenshotCapture with
  | some e => .error (e, none)
  | none =>
  match env.readShot with
  | .error e => .error (e, none)
  | .ok img =>
  -- `timeout < 1000` is clamped with a warning only, no exception.
  if args.customRulesIsDict = some false then
    .error (.valueError "custom_rules must be a dictionary", none)
  else
  let sel := selectTesters env.catalog args.testers
  match env.evalText with
  | .error e => .error (e, none)
  | .ok page_text =>
  match runTesters env args img page_text sel 0 with
  | .error e => .error (e, none)
  | .ok findings =>
  let record := mkCheckRecord env.tsShot env.pageUrl (screenshotPath env.tsShot) findings
  match aggregateIssues env.jsonLoads findings [] with
  | .error e => .error (e, none)
  | .ok allIssues =>
  match savePlaywright env args record with
  | .error (e, v) => .error (e, some v)
  | .ok (ofp, written) =>
    .ok ({ timestamp := env.tsRet, url := env.pageUrl, bugs := allIssues,
           raw_response := record, profile := args.profile_search.getD "default",
           output_file := ofp }, written)

/-- The Playwright `check()` including its top-level `except Exception`
handler (lines 488-497).  The handler builds an error-shaped `CheckResult`
whose `output_file` field reads the local `output_file_path`; when the body
raised before line 443 that local is unbound, so the handler itself raises
`UnboundLocalError`, which escapes to the caller. -/
def checkPlaywright (env : CheckEnv) (args : CheckArgs) :
    Except PyExc (CheckResult × Option (String × JVal)) :=
  match checkBodyP env args with
  | .ok r => .ok r
  | .error (_, none) => .error (.unboundLocalError "output_file_path")
  | .error (e, some ofp) =>
    .ok ({ timestamp := env.tsRet, url := env.pageUrl, bugs := [],
           raw_response := .obj [("error", .str e.msg)],
           profile := args.profile_search.getD "default",
           output_file := ofp }, none)

/-- The `try` body of the Selenium `check()` (lines 294-453); identical to the
Playwright body except for the persistence step. -/
def checkBodyS (env : CheckEnv) (args : CheckArgs) :
    Except PyExc (CheckResult × Option (String × JVal)) :=
  match env.screenshotCapture with
  | some e => .error e
  | none =>
  match env.readShot with
  | .error e => .error e
  | .ok img =>
  if args.customRulesIsDict = some false then
    .error (.valueError "custom_rules must be a dictionary")
  else
  let sel := selectTesters env.catalog args.testers
  match env.evalText with
  | .error e => .error e
  | .ok page_text =>
  match runTesters env args img page_text sel 0 with
  | .error e => .error e
  | .ok findings =>
  let record := mkCheckRecord env.tsShot env.pageUrl (screenshotPath env.tsShot) findings
  match aggregateIssues env.jsonLoads findings [] with
  | .error e => .error e
  | .ok allIssues =>
  match saveSelenium env args record with
  | .error e => .error e
  | .ok (ofp, written) =>
    .ok ({ timestamp := env.tsRet, url := env.pageUrl, bugs := allIssues,
           raw_response := record, profile := args.profile_search.getD "default",
           output_file := ofp }, written)

/-- The Selenium `check()` including its top-level handler (lines 455-464),
which hardcodes `output_file=None` and therefore always returns normally. -/
def checkSelenium (env : CheckEnv) (args : CheckArgs) :
    Except PyExc (CheckResult × Option (String × JVal)) :=
  match checkBodyS env args with
  | .ok r => .ok r
  | .error e =>
    .ok ({ timestamp := env.tsRet, url := env.pageUrl, bugs := [],
           raw_response := .obj [("error", .str e.msg)],
           profile := args.profile_search.getD "default",
           output_file := none }, none)

/-- Extracts the `(path, document)` pair written by the persistence step, if
the call returned normally and wrote a file. -/
def writtenFile : Except PyExc (CheckResult × Option (String × JVal)) →
    Option (String × JVal)
  | .ok (_, w) => w
  | .error _ => none

/-- Whether a JSON value is an array. -/
def JVal.isArr : JVal → Bool
  | .arr _ => true
  | _ => false

/-- Reads the length of the `testers_results` array of a serialised
CheckRecord. -/
def testersResultsLen : JVal → Option Nat
  | .obj fields =>
    match fields.lookup "testers_results" with
    | some (.arr l) => some l.length
    | _ => none
  | _ => none

/-- The written document, if any. -/
def writtenDoc (x : Except PyExc (CheckResult × Option (String × JVal))) : Option JVal :=
  match writtenFile x with
  | some (_, v) => some v
  | none => none

/-- The written path, if any. -/
def writtenPath (x : Except PyExc (CheckResult × Option (String × JVal))) : Option String :=
  match writtenFile x with
  | some (p, _) => some p
  | none => none

/-- Applies `testersResultsLen` to a one-element written array (the shape the
claim C2 asserts for a fresh file). -/
def writtenSingleRecordLen (x : Except PyExc (CheckResult × Option (String × JVal))) :
    Option Nat :=
  match writtenDoc x with
  | some (.arr [r]) => testersResultsLen r
  | _ => none

/-- Values that Python `list.extend` accepts without raising. -/
def extendable : JVal → Bool
  | .arr _ => true
  | .str _ => true
  | .obj _ => true
  | _ => false

/-- A parsed vision payload that the aggregation loop can process without an
uncaught exception. -/
def parsedBenign (jl : String → Except String JVal) : JVal → Bool
  | .str s =>
    match jl s with
    | .ok w => extendable w
    | .error _ => true
  | v => extendable v

/-- Benignity of a tester's `issues` entry for the aggregation loop. -/
def outBenign (jl : String → Except String JVal) : VisionOut → Bool
  | .fallback => true
  | .parsed v => parsedBenign jl v

/-- Benignity of a network outcome: the only way `chat_vision` hands the
aggregation loop a problematic value is a successfully parsed response. -/
def netBenign (jl : String → Except String JVal) : VisionNet → Bool
  | .ok (.ok v) => parsedBenign jl v
  | _ => true

/-- Reads the `testers_results` length of a written document that is *not* a
JSON array (the Selenium persistence shape). -/
def writtenNonArrRecordLen (x : Except PyExc (CheckResult × Option (String × JVal))) :
    Option Nat :=
  match writtenDoc x with
  | some v => if v.isArr then none else testersResultsLen v
  | none => none

/-! ## Concrete fixtures -/

/-- A one-persona catalog as shipped (the default "Jason" persona). -/
def jasonCatalog : List Tester := [⟨"Jason", "General UI and UX expert"⟩]

/-- The default arguments of `check()` (all parameters left at their Python
defaults; `output_dir="ai_check_results"`, `save_to_file=True`). -/
def argsDefault : CheckArgs :=
  { profile_search := none, customRulesIsDict := none, custom_prompt := none,
    output := "return list of issues as an array of JSON objects with properties: title, severity, description, why_fix, how_to_fix, confidence (a number between 0 and 1)",
    testers := none, label := none, save_to_file := true,
    output_dir := some "ai_check_results" }

/-- `check()` arguments with `output_dir="out"`. -/
def argsSaveOut : CheckArgs :=
  { profile_search := none, customRulesIsDict := none, custom_prompt := none,
    output := "return list of issues as an array of JSON objects with properties: title, severity, description, why_fix, how_to_fix, confidence (a number between 0 and 1)",
    testers := none, label := none, save_to_file := true, output_dir := some "out" }

/-- An environment for a fully successful run: screenshot, page access and
file system all succeed, each network exchange parses to an empty issue
array, and no prior results file exists. -/
def envHappy : CheckEnv :=
  { catalog := jasonCatalog, maxRetries := 5, apiKey := some "sk-test",
    screenshotCapture := none, readShot := .ok "aW1hZ2U=",
    pageUrl := "https://example.com", evalText := .ok "Example Domain",
    net := fun _ _ => .ok (.ok (.arr [])), jsonLoads := fun _ => .error "invalid",
    tsShot := "20250101_120000", tsSave := "20250101_120001",
    tsRet := "20250101_120002", makedirsOut := none,
    readFs := fun _ => .absent, writeOut := none }

/-- `envHappy` with a failing screenshot call. -/
def envShotFail : CheckEnv :=
  { envHappy with
    screenshotCapture := some (.screenshotError "Page.screenshot: Target closed") }

/-! ## Helper lemmas -/

theorem strData_append (a b : String) : (a ++ b).data = a.data ++ b.data := rfl

theorem hasSubstr_iff (n : List Char) : ∀ h : List Char, hasSubstr n h = true ↔ n <:+: h := by
  intro h
  induction h with
  | nil => simp [hasSubstr, List.isEmpty_iff, List.infix_nil]
  | cons c t ih =>
    simp [hasSubstr, List.infix_cons_iff, ih, List.isPrefixOf_iff_prefix]

theorem matchesRequested_iff (names : List String) (t : Tester) :
    matchesRequested names t = true ↔
      ∃ r ∈ names, (lowerStr r).data <:+: (lowerStr t.name).data := by
  simp [matchesRequested, List.any_eq_true, hasSubstr_iff]

theorem retryLoop_firstOk {α : Type} (f : Nat → α) (n idx : Nat) :
    retryLoop (fun k => (.ok (f k) : Except PyExc α)) (n + 1) idx = (.ok (f idx), 1, []) := by
  cases n with
  | zero => rfl
  | succ m => rfl

theorem retryLoop_allFail {α : Type} (attempt : Nat → Except PyExc α) (f : Nat → PyExc)
    (h : ∀ i, attempt i = .error (f i)) :
    ∀ n idx, retryLoop attempt (n + 1) idx = (.error (f (idx + n)), n + 1, List.replicate n 2) := by
  intro n
  induction n with
  | zero =>
    intro idx
    simp [retryLoop, h idx]
  | succ m ih =>
    intro idx
    show retryLoop attempt (m + 2) idx = _
    rw [retryLoop, h idx, ih (idx + 1)]
    have harith : idx + 1 + m = idx + (m + 1) := by omega
    simp [harith, List.replicate_succ]

theorem chat_vision_ok (api_key : Option String) (prompt img : String) (net : VisionNet) :
    chat_vision api_key prompt img net = .ok (chat_visionRun api_key prompt img net) := rfl

theorem chatRun_benign (jl : String → Except String JVal) (ak : Option String)
    (p i : String) (n : VisionNet) (h : netBenign jl n = true) :
    outBenign jl (chat_visionRun ak p i n).1 = true := by
  unfold chat_visionRun chat_visionBody
  by_cases hk : pyTruthy ak = false
  · simp [hk, outBenign]
  · simp only [hk, if_false]
    by_cases hi : i = ""
    · simp [hi, outBenign]
    · by_cases hp : p = ""
      · simp [hi, hp, outBenign]
      · simp only [hi, hp, if_false]
        cases n with
        | unreachable m => simp [outBenign]
        | badStatus c m => simp [outBenign]
        | ok content =>
          cases content with
          | error m => simp [outBenign]
          | ok v =>
            simpa [outBenign, netBenign] using h

theorem extendPy_ok (acc : List JVal) (v : JVal) (h : extendable v = true) :
    ∃ l, extendPy acc v = .ok l := by
  cases v <;> simp_all [extendable, extendPy]

theorem aggregateIssues_ok (jl : String → Except String JVal) :
    ∀ (frs : List TesterResult) (acc : List JVal),
    (∀ tr ∈ frs, outBenign jl tr.issues = true) →
    ∃ l, aggregateIssues jl frs acc = .ok l := by
  intro frs
  induction frs with
  | nil => intro acc _; exact ⟨acc, rfl⟩
  | cons tr rest ih =>
    intro acc hben
    have hhd : outBenign jl tr.issues = true := hben tr (List.mem_cons_self tr rest)
    have htl : ∀ x ∈ rest, outBenign jl x.issues = true :=
      fun x hx => hben x (List.mem_cons_of_mem tr hx)
    match hiss : tr.issues with
    | .fallback =>
      rcases ih acc htl with ⟨l, hl⟩
      exact ⟨l, by rw [aggregateIssues, hiss]; exact hl⟩
    | .parsed (.str s) =>
      rw [hiss] at hhd
      simp only [outBenign] at hhd
      match hjl : jl s with
      | .error m =>
        rcases ih acc htl with ⟨l, hl⟩
        exact ⟨l, by simp only [aggregateIssues, hiss, hjl]; exact hl⟩
      | .ok w =>
        have hw : extendable w = true := by
          rw [parsedBenign, hjl] at hhd
          exact hhd
        rcases extendPy_ok acc w hw with ⟨acc2, hacc2⟩
        rcases ih acc2 htl with ⟨l, hl⟩
        exact ⟨l, by simp only [aggregateIssues, hiss, hjl, hacc2]; exact hl⟩
    | .parsed (.arr a) =>
      rcases ih (acc ++ a) htl with ⟨l, hl⟩
      exact ⟨l, by rw [aggregateIssues, hiss]; exact hl⟩
    | .parsed (.obj fs) =>
      rcases ih (acc ++ fs.map (fun f => JVal.str f.1)) htl with ⟨l, hl⟩
      exact ⟨l, by rw [aggregateIssues, hiss]; exact hl⟩
    | .parsed .null =>
      rw [hiss] at hhd
      simp [outBenign, parsedBenign, extendable] at hhd
    | .parsed (.bool b) =>
      rw [hiss] at hhd
      simp [outBenign, parsedBenign, extendable] at hhd
    | .parsed (.num m) =>
      rw [hiss] at hhd
      simp [outBenign, parsedBenign, extendable] at hhd

theorem runTesters_ok (env : CheckEnv) (args : CheckArgs) (img page_text : String)
    (hfuel : 1 ≤ env.maxRetries)
    (hnet : ∀ i k, netBenign env.jsonLoads (env.net i k) = true) :
    ∀ (sel : List Tester) (idx : Nat),
    ∃ frs, runTesters env args img page_text sel idx = .ok frs
      ∧ frs.length = sel.length
      ∧ ∀ tr ∈ frs, outBenign env.jsonLoads tr.issues = true := by
  intro sel
  induction sel with
  | nil => intro idx; exact ⟨[], rfl, rfl, nofun⟩
  | cons t rest ih =>
    intro idx
    rcases ih (idx + 1) with ⟨frs, hfrs, hlen, hben⟩
    obtain ⟨m, hm⟩ : ∃ m, env.maxRetries = m + 1 :=
      ⟨env.maxRetries - 1, by omega⟩
    refine ⟨{ tester := t.name, biography := t.biography,
              issues := (chat_visionRun env.apiKey
                (visionPrompt env.pageUrl page_text t args.output args.custom_prompt)
                img (env.net idx 0)).1 } :: frs, ?_, ?_, ?_⟩
    · rw [runTesters]
      simp only [chat_vision_ok, hm]
      rw [retryLoop_firstOk
        (fun k => chat_visionRun env.apiKey
          (visionPrompt env.pageUrl page_text t args.output args.custom_prompt)
          img (env.net idx k)) m 0]
      simp only [hfrs]
    · simp [hlen]
    · intro tr htr
      rcases List.mem_cons.mp htr with h | h
      · subst h
        exact chatRun_benign env.jsonLoads env.apiKey _ img (env.net idx 0) (hnet idx 0)
      · exact hben tr h

theorem savePlaywright_fresh (env : CheckEnv) (args : CheckArgs) (record : JVal)
    (hsave : args.save_to_file = true) (hdir : pyTruthy args.output_dir = true)
    (hmk : env.makedirsOut = none) (hw : env.writeOut = none)
    (hprior : env.readFs (outputFileName args.label env.tsSave) = .absent) :
    savePlaywright env args record =
      .ok (some (joinPath (args.output_dir.getD "") (outputFileName args.label env.tsSave)),
           some (joinPath (args.output_dir.getD "") (outputFileName args.label env.tsSave),
                 .arr [record])) := by
  simp [savePlaywright, resolveOutPath, hsave, hdir, hmk, hw, hprior]

theorem saveSelenium_fresh (env : CheckEnv) (args : CheckArgs) (record : JVal)
    (hsave : args.save_to_file = true) (hdir : pyTruthy args.output_dir = true)
    (hmk : env.makedirsOut = none) (hw : env.writeOut = none) :
    saveSelenium env args record =
      .ok (some (joinPath (args.output_dir.getD "") (outputFileName args.label env.tsSave)),
           some (joinPath (args.output_dir.getD "") (outputFileName args.label env.tsSave),
                 record)) := by
  simp [saveSelenium, resolveOutPath, hsave, hdir, hmk, hw]

theorem testersResultsLen_mkCheckRecord (ts url shot : String) (frs : List TesterResult) :
    testersResultsLen (mkCheckRecord ts url shot frs) = some frs.length := by
  simp [testersResultsLen, mkCheckRecord, List.lookup]

theorem RateLimiter.wait_lower (rl : RateLimiter) (now o g : ℚ)
    (ho : 0 ≤ o) (hg : 0 ≤ g) :
    rl.last_call + rl.min_interval ≤ (rl.wait now o g).2 := by
  unfold RateLimiter.wait
  dsimp only
  split
  · linarith
  · next h => linarith [not_lt.mp h]

theorem RateLimiter.runWaits_chain (m : ℚ) (events : List (ℚ × ℚ × ℚ)) :
    ∀ rl : RateLimiter, rl.min_interval = m →
    (∀ ev ∈ events, 0 ≤ ev.2.1 ∧ 0 ≤ ev.2.2) →
    List.Chain (fun a b => a + m ≤ b) rl.last_call (rl.runWaits events) := by
  induction events with
  | nil => intro rl _ _; simp [RateLimiter.runWaits]
  | cons ev rest ih =>
    intro rl hm hev
    obtain ⟨now, o, g⟩ := ev
    have h0 : 0 ≤ o ∧ 0 ≤ g := hev (now, o, g) (List.mem_cons_self _ _)
    rw [RateLimiter.runWaits]
    apply List.Chain.cons
    · rw [← hm]
      exact rl.wait_lower now o g h0.1 h0.2
    · have hrest := ih (rl.wait now o g).1
        (by rw [← hm]; rfl)
        (fun x hx => hev x (List.mem_cons_of_mem _ hx))
      have hlast : ((rl.wait now o g).1).last_call = (rl.wait now o g).2 := rfl
      rw [hlast] at hrest
      exact hrest

/-! ## Claims -/

/-- C1: the claim states that `check()` never lets an exception escape and
always returns an error-shaped CheckResult.  The Selenium binding does behave
this way, but the Playwright binding's `except` handler reads the local
`output_file_path`, which is unbound whenever the exception was raised before
the persistence stage (line 443) — e.g. on a screenshot failure — so the
handler itself raises `UnboundLocalError`, which escapes to the caller.  This
theorem evaluates both bindings at that failing input: Playwright raises,
Selenium returns the error-shaped result the claim describes. -/
theorem c1_playwright_handler_raises_unbound_local :
    checkPlaywright envShotFail argsDefault = .error (.unboundLocalError "output_file_path")
    ∧ checkSelenium envShotFail argsDefault =
        .ok ({ timestamp := "20250101_120002", url := "https://example.com", bugs := [],
               raw_response := .obj [("error", .str "Page.screenshot: Target closed")],
               profile := "default", output_file := none }, none) :=
  ⟨rfl, rfl⟩

/-- C7: the claim states that a missing `OPENAI_API_KEY` at module load time
degrades to a logged warning.  In the code the warning branch first executes
`alert('jj')`, and `alert` is not defined anywhere in either module, so
loading the module raises `NameError` instead of degrading.  A present non-empty
key loads fine. -/
theorem c7_module_load_name_error :
    moduleInitApiKey none = .error (.nameError "alert")
    ∧ moduleInitApiKey (some "") = .error (.nameError "alert")
    ∧ moduleInitApiKey (some "sk-test") = .ok (some "sk-test") := by
  refine ⟨rfl, by simp [moduleInitApiKey], by simp [moduleInitApiKey]⟩

/-- C3 counterexample: the claim states that `chat_vision` with an empty
prompt fails with a validation error raised to its caller.  At this concrete
input the call returns normally (`.ok`) with the fallback string `"[]"` —
the internal `ValueError` is caught by the catch-all handler — so no error
reaches the caller; no network request is made (the boolean is `false`). -/
theorem c3_counterexample_validation_swallowed :
    chat_vision (some "sk-test") "" "aW1hZ2U=" (.ok (.ok (.arr []))) =
      .ok (.fallback, false) := rfl

/-- C3 amended: with empty `prompt` or empty `imageBase64`, `chat_vision`
makes no network request, but instead of raising the validation error to its
caller it swallows it and returns the fallback string `"[]"`. -/
theorem c3_amended_no_network_fallback (api_key : Option String)
    (prompt base64_image : String) (net : VisionNet)
    (h : prompt = "" ∨ base64_image = "") :
    chat_vision api_key prompt base64_image net = .ok (.fallback, false) := by
  unfold chat_vision chat_visionRun chat_visionBody
  by_cases hk : pyTruthy api_key = false
  · simp [hk]
  · rcases h with h | h
    · subst h
      by_cases hi : base64_image = "" <;> simp [hk, hi]
    · subst h
      simp [hk]

/-- C3 witness. -/
theorem c3_amended_no_network_fallback_witness :
    ("" = "" ∨ "aW1hZ2U=" = "")
    ∧ chat_vision (some "sk-test") "" "aW1hZ2U=" (.unreachable "connection refused") =
        .ok (.fallback, false) :=
  ⟨Or.inl rfl,
   c3_amended_no_network_fallback (some "sk-test") "" "aW1hZ2U="
     (.unreachable "connection refused") (Or.inl rfl)⟩

/-- C4 counterexample: the claim states that with an unreachable endpoint and
`max_retries = 3` the analyze call runs exactly 3 times and the error then
propagates.  In the code `chat_vision` catches the transport error itself and
returns `"[]"`, so the retry loop sees a normal return on the first attempt:
exactly one invocation, no sleeps, no propagated error. -/
theorem c4_counterexample_single_invocation :
    retryLoop (fun _ => chat_vision (some "sk-test") "analyze this page" "aW1hZ2U="
      (.unreachable "connection refused")) 3 0 = (.ok (.fallback, true), 1, []) := rfl

/-- C4 amended: the retry loop itself would invoke a raising attempt exactly
`max_retries` times, with a fixed 2-second sleep between consecutive attempts,
and re-raise the final error (first conjunct, with `max_retries = 3`); but
`chat_vision` never raises — it converts transport failures into a returned
`"[]"` — so with an unreachable endpoint the loop performs exactly one
invocation and no error propagates, for any positive retry budget (second
conjunct). -/
theorem c4_amended_retry_behavior :
    (∀ (α : Type) (attempt : Nat → Except PyExc α) (f : Nat → PyExc),
       (∀ i, attempt i = .error (f i)) →
       retryLoop attempt 3 0 = (.error (f 2), 3, [2, 2]))
    ∧ (∀ (api_key : Option String) (prompt img msg : String) (fuel : Nat),
       retryLoop (fun _ => chat_vision api_key prompt img (.unreachable msg)) (fuel + 1) 0 =
         (.ok (chat_visionRun api_key prompt img (.unreachable msg)), 1, [])) := by
  constructor
  · intro α attempt f h
    have := retryLoop_allFail attempt f h 2 0
    simpa using this
  · intro api_key prompt img msg fuel
    exact retryLoop_firstOk
      (fun _ => chat_visionRun api_key prompt img (.unreachable msg)) fuel 0

/-- C4 witness. -/
theorem c4_amended_retry_behavior_witness :
    retryLoop (fun _ => (.error (.requestError "connection refused") : Except PyExc Unit)) 3 0
      = (.error (.requestError "connection refused"), 3, [2, 2])
    ∧ retryLoop (fun _ => chat_vision (some "sk-test") "analyze" "aW1hZ2U="
        (.unreachable "connection refused")) 3 0
      = (.ok (chat_visionRun (some "sk-test") "analyze" "aW1hZ2U="
          (.unreachable "connection refused")), 1, []) :=
  ⟨c4_amended_retry_behavior.1 Unit _ (fun _ => .requestError "connection refused")
     (fun _ => rfl),
   c4_amended_retry_behavior.2 (some "sk-test") "analyze" "aW1hZ2U=" "connection refused" 2⟩

/-- C5: tester selection.  (1) With `testers=None`, selection returns exactly
the catalog entries whose name lowercases to "jason" (so the empty list on an
empty catalog); (2) with a requested-name list, every catalog tester whose
lowercased name contains some requested name (lowercased) as a substring is
selected; (3) when at least one such match exists, the selection consists of
exactly the matching testers; (4)-(5) the two concrete scenarios from the
spec: on a catalog holding Jason and Alice, `["alice"]` and `["ALICE","bob"]`
both select exactly Alice. -/
theorem c5_tester_selection :
    (∀ (catalog : List Tester) (t : Tester),
       t ∈ selectTesters catalog none ↔ t ∈ catalog ∧ lowerStr t.name = "jason")
    ∧ (∀ (catalog : List Tester) (names : List String) (t : Tester),
       t ∈ catalog → (∃ r ∈ names, (lowerStr r).data <:+: (lowerStr t.name).data) →
       t ∈ selectTesters catalog (some names))
    ∧ (∀ (catalog : List Tester) (names : List String),
       (∃ t ∈ catalog, ∃ r ∈ names, (lowerStr r).data <:+: (lowerStr t.name).data) →
       ∀ t, t ∈ selectTesters catalog (some names) ↔
         t ∈ catalog ∧ ∃ r ∈ names, (lowerStr r).data <:+: (lowerStr t.name).data)
    ∧ selectTesters [⟨"Jason", "bioJ"⟩, ⟨"Alice", "bioA"⟩] (some ["alice"])
        = [⟨"Alice", "bioA"⟩]
    ∧ selectTesters [⟨"Jason", "bioJ"⟩, ⟨"Alice", "bioA"⟩] (some ["ALICE", "bob"])
        = [⟨"Alice", "bioA"⟩] := by
  have hmem : ∀ (catalog : List Tester) (names : List String) (t : Tester),
      t ∈ catalog.filter (matchesRequested names) ↔
        t ∈ catalog ∧ ∃ r ∈ names, (lowerStr r).data <:+: (lowerStr t.name).data := by
    intro catalog names t
    rw [List.mem_filter, matchesRequested_iff]
  have hne : ∀ (catalog : List Tester) (names : List String),
      (∃ t ∈ catalog, ∃ r ∈ names, (lowerStr r).data <:+: (lowerStr t.name).data) →
      (catalog.filter (matchesRequested names)).isEmpty = false := by
    intro catalog names ⟨t, ht, hr⟩
    rw [List.isEmpty_eq_false]
    exact List.ne_nil_of_mem ((hmem catalog names t).mpr ⟨ht, hr⟩)
  refine ⟨?_, ?_, ?_, by decide, by decide⟩
  · intro catalog t
    simp [selectTesters, List.mem_filter]
  · intro catalog names t ht hr
    rw [selectTesters]
    simp only [hne catalog names ⟨t, ht, hr⟩, Bool.false_eq_true, if_false]
    exact (hmem catalog names t).mpr ⟨ht, hr⟩
  · intro catalog names hex t
    rw [selectTesters]
    simp only [hne catalog names hex, Bool.false_eq_true, if_false]
    exact hmem catalog names t

/-- C5 witness. -/
theorem c5_tester_selection_witness :
    ((⟨"Jason", "bioJ"⟩ : Tester) ∈
       selectTesters [⟨"Jason", "bioJ"⟩, ⟨"Alice", "bioA"⟩] none)
    ∧ ((⟨"Alice", "bioA"⟩ : Tester) ∈
       selectTesters [⟨"Jason", "bioJ"⟩, ⟨"Alice", "bioA"⟩] (some ["lic"])) :=
  ⟨(c5_tester_selection.1 _ _).mpr ⟨by decide, by decide⟩,
   c5_tester_selection.2.1 _ ["lic"] _ (by decide)
     ⟨"lic", by decide, ⟨['a'], ['e'], by decide⟩⟩⟩

/-- C6 counterexample: the claim states that selection never returns an empty
list on a non-empty catalog.  On a catalog containing only Alice, requesting
`["bob"]` matches nothing and the fallback filter for "jason" also matches
nothing, so the selection is empty although the catalog is not. -/
theorem c6_counterexample_empty_selection :
    selectTesters [⟨"Alice", "Accessibility specialist"⟩] (some ["bob"]) = []
    ∧ ([⟨"Alice", "Accessibility specialist"⟩] : List Tester) ≠ [] := by
  exact ⟨by decide, by decide⟩

/-- C6 amended: selection never returns the empty list provided the catalog
contains a tester whose name lowercases to "jason" (the shipped catalog's
default persona); with no such entry and zero matches, selection is empty. -/
theorem c6_amended_nonempty_with_jason (catalog : List Tester)
    (req : Option (List String)) (t : Tester)
    (ht : t ∈ catalog) (hj : lowerStr t.name = "jason") :
    selectTesters catalog req ≠ [] := by
  have hfilter : catalog.filter (fun x => lowerStr x.name == "jason") ≠ [] := by
    apply List.ne_nil_of_mem (a := t)
    rw [List.mem_filter]
    exact ⟨ht, by simp [hj]⟩
  cases req with
  | none => simpa [selectTesters] using hfilter
  | some names =>
    rw [selectTesters]
    cases he : (catalog.filter (matchesRequested names)).isEmpty with
    | true => simpa [he] using hfilter
    | false =>
      simp only [he, Bool.false_eq_true, if_false]
      rw [List.isEmpty_eq_false] at he
      exact he

/-- C6 witness. -/
theorem c6_amended_nonempty_with_jason_witness :
    selectTesters [⟨"Jason", "General UI and UX expert"⟩] (some ["nonexistent"]) ≠ [] :=
  c6_amended_nonempty_with_jason _ (some ["nonexistent"])
    ⟨"Jason", "General UI and UX expert"⟩ (by decide) (by decide)

theorem infix_peel {x l : List Char} (pre : List Char) (h : x <:+: l) : x <:+: pre ++ l :=
  h.trans (List.suffix_append pre l).isInfix

theorem infix_head (x post : List Char) : x <:+: x ++ post :=
  (List.prefix_append x post).isInfix

set_option maxRecDepth 4000 in
/-- C8: the built vision prompt contains the literal url, page text, tester
name and tester biography as substrings, and ends with the custom prompt
verbatim whenever one is supplied. -/
theorem c8_prompt_contains (url page_text : String) (tester : Tester) (output : String)
    (custom_prompt : Option String) :
    url.data <:+: (visionPrompt url page_text tester output custom_prompt).data
    ∧ page_text.data <:+: (visionPrompt url page_text tester output custom_prompt).data
    ∧ tester.name.data <:+: (visionPrompt url page_text tester output custom_prompt).data
    ∧ tester.biography.data <:+: (visionPrompt url page_text tester output custom_prompt).data
    ∧ ∀ s, custom_prompt = some s →
        s.data <:+ (visionPrompt url page_text tester output custom_prompt).data := by
  unfold visionPrompt
  simp only [strData_append, List.append_assoc]
  refine ⟨?_, ?_, ?_, ?_, ?_⟩
  · exact infix_peel _ (infix_head _ _)
  · exact infix_peel _ (infix_peel _ (infix_peel _ (infix_head _ _)))
  · exact infix_peel _ (infix_peel _ (infix_peel _ (infix_peel _
      (infix_peel _ (infix_head _ _)))))
  · exact infix_peel _ (infix_peel _ (infix_peel _ (infix_peel _
      (infix_peel _ (infix_peel _ (infix_peel _ (infix_head _ _)))))))
  · intro s hs
    subst hs
    refine List.IsSuffix.trans ?_ (List.suffix_append _ _)
    refine List.IsSuffix.trans ?_ (List.suffix_append _ _)
    refine List.IsSuffix.trans ?_ (List.suffix_append _ _)
    refine List.IsSuffix.trans ?_ (List.suffix_append _ _)
    refine List.IsSuffix.trans ?_ (List.suffix_append _ _)
    refine List.IsSuffix.trans ?_ (List.suffix_append _ _)
    refine List.IsSuffix.trans ?_ (List.suffix_append _ _)
    refine List.IsSuffix.trans ?_ (List.suffix_append _ _)
    refine List.IsSuffix.trans ?_ (List.suffix_append _ _)
    refine List.IsSuffix.trans ?_ (List.suffix_append _ _)
    refine List.IsSuffix.trans ?_ (List.suffix_append _ _)
    by_cases h0 : s = ""
    · subst h0
      simp
    · simp [h0]

/-- C8 witness: the theorem applied at concrete inputs, with the
custom-prompt hypothesis discharged by `rfl`. -/
theorem c8_prompt_contains_witness :
    "https://example.com".data <:+:
        (visionPrompt "https://example.com" "Example Domain" ⟨"Jason", "expert"⟩
          "json please" (some "custom rule")).data
    ∧ "custom rule".data <:+
        (visionPrompt "https://example.com" "Example Domain" ⟨"Jason", "expert"⟩
          "json please" (some "custom rule")).data :=
  ⟨(c8_prompt_contains "https://example.com" "Example Domain" ⟨"Jason", "expert"⟩
      "json please" (some "custom rule")).1,
   (c8_prompt_contains "https://example.com" "Example Domain" ⟨"Jason", "expert"⟩
      "json please" (some "custom rule")).2.2.2.2 "custom rule" rfl⟩

/-- C9: a RateLimiter constructed at rate `r > 0` guarantees that any two
successive `wait()` returns are separated by at least `1/r` seconds, for any
sequence of calls by a single caller, over the idealised clock model (the
entry reading `now` is arbitrary, `time.sleep` may only oversleep, and the
final `time.time()` reading happens at or after wake-up). -/
theorem c9_rate_limiter_spacing (r : ℚ) (events : List (ℚ × ℚ × ℚ))
    (_hr : 0 < r) (hev : ∀ ev ∈ events, 0 ≤ ev.2.1 ∧ 0 ≤ ev.2.2) :
    List.Chain' (fun a b => a + 1 / r ≤ b) ((RateLimiter.init r).runWaits events) := by
  have h := RateLimiter.runWaits_chain (1 / r) events (RateLimiter.init r) rfl hev
  cases hl : (RateLimiter.init r).runWaits events with
  | nil => simp
  | cons x xs =>
    rw [hl] at h
    exact (List.chain_cons.mp h).2

/-- C9 witness: rate 2 (minimum interval 1/2) over two instrumented calls. -/
theorem c9_rate_limiter_spacing_witness :
    (0 : ℚ) < 2
    ∧ List.Chain' (fun a b => a + 1 / 2 ≤ b)
        ((RateLimiter.init 2).runWaits [(0, 0, 0), (0, 0, 0)]) :=
  ⟨by norm_num,
   c9_rate_limiter_spacing 2 [(0, 0, 0), (0, 0, 0)] (by norm_num)
     (by intro ev hev
         rcases List.mem_cons.mp hev with h | h
         · subst h; exact ⟨le_refl 0, le_refl 0⟩
         · rcases List.mem_cons.mp h with h2 | h2
           · subst h2; exact ⟨le_refl 0, le_refl 0⟩
           · simp at h2)⟩

theorem aiPrefix_cases (l R : List Char)
    (h : List.isPrefixOf ['a', 'i', '_'] (l ++ '_' :: R) = true) :
    List.isPrefixOf ['a', 'i', '_'] l = true ∨ l = ['a', 'i'] := by
  match l with
  | [] =>
    simp only [List.nil_append, List.isPrefixOf, Bool.and_eq_true, beq_iff_eq] at h
    exact absurd h.1 (by decide)
  | [c] =>
    simp only [List.cons_append, List.nil_append, List.isPrefixOf, Bool.and_eq_true,
      beq_iff_eq] at h
    exact absurd h.2.1 (by decide)
  | c1 :: c2 :: l' =>
    simp only [List.cons_append, List.isPrefixOf, Bool.and_eq_true, beq_iff_eq] at h
    obtain ⟨h1, h2, h3⟩ := h
    subst h1
    subst h2
    match l' with
    | [] => exact Or.inr rfl
    | c3 :: l'' =>
      simp only [List.cons_append, List.isPrefixOf, Bool.and_eq_true, beq_iff_eq] at h3
      obtain ⟨hc, -⟩ := h3
      subst hc
      left
      simp [List.isPrefixOf]

/-- C10 counterexample: the claim quantifies over every label that does not
start with `"ai_"`.  The label `"ai"` does not start with `"ai_"`, yet the
file it produces, `ai_20250101_120000_ai.json`, does match the report glob
`ai_*.json` — so a record saved under that label is included, not excluded. -/
theorem c10_counterexample_label_ai :
    List.isPrefixOf "ai_".data "ai".data = false
    ∧ matchesAiGlob (outputFileName (some "ai") "20250101_120000") = true := by
  exact ⟨by decide, by decide⟩

/-- C10 amended: for every label that neither starts with `"ai_"` nor equals
`"ai"`, the labelled result file `{label}_{ts}_ai.json` fails the report glob
`ai_*.json` and is therefore excluded from the HTML report, while the
unlabelled file `ai_checks_{ts}.json` always matches and is included. -/
theorem c10_amended_label_exclusion (label ts : String)
    (h1 : List.isPrefixOf "ai_".data label.data = false) (h2 : label ≠ "ai") :
    matchesAiGlob (outputFileName (some label) ts) = false
    ∧ matchesAiGlob (outputFileName none ts) = true := by
  constructor
  · have hshape : (outputFileName (some label) ts).data
        = label.data ++ '_' :: (ts.data ++ "_ai.json".data) := by
      show (label ++ "_" ++ ts ++ "_ai.json").data = _
      simp [strData_append, List.append_assoc]
    have hpre : List.isPrefixOf "ai_".data (outputFileName (some label) ts).data = false := by
      by_contra hcon
      rw [Bool.not_eq_false, hshape] at hcon
      rcases aiPrefix_cases label.data _ hcon with h | h
      · rw [h1] at h
        exact Bool.false_ne_true h
      · apply h2
        exact congrArg String.mk h
    rw [matchesAiGlob, hpre]
    rfl
  · have hpre : List.isPrefixOf "ai_".data (outputFileName none ts).data = true := rfl
    have hsuf : List.isSuffixOf ".json".data (outputFileName none ts).data = true := by
      rw [List.isSuffixOf_iff_suffix]
      exact ⟨"ai_checks_".data ++ ts.data, by
        show ("ai_checks_".data ++ ts.data) ++ ".json".data
          = (("ai_checks_" ++ ts) ++ ".json").data
        simp [strData_append]⟩
    have hlen : decide (8 ≤ (outputFileName none ts).data.length) = true := by
      rw [decide_eq_true_eq]
      show 8 ≤ ((("ai_checks_" ++ ts) ++ ".json")).data.length
      simp only [strData_append, List.length_append, List.length_cons, List.length_nil]
      omega
    rw [matchesAiGlob, hpre, hsuf, hlen]
    rfl

/-- C10 witness. -/
theorem c10_amended_label_exclusion_witness :
    matchesAiGlob (outputFileName (some "smoke") "20250101_120000") = false
    ∧ matchesAiGlob (outputFileName none "20250101_120000") = true :=
  c10_amended_label_exclusion "smoke" "20250101_120000" (by decide) (by decide)

/-- C2 counterexample: the claim requires that after `check()` with
`save_to_file=true` and no prior file, the written file contains a JSON
*array* with exactly one CheckRecord.  The Selenium binding (which performs
no load-append at all) writes the single CheckRecord *object* itself: at this
concrete happy-path input the written document is an object, not an array. -/
theorem c2_counterexample_selenium_writes_object :
    writtenDoc (checkSelenium envHappy argsSaveOut) =
      some (JVal.obj [("timestamp", .str "20250101_120000"),
        ("url", .str "https://example.com"),
        ("screenshot", .str "screenshots/check_20250101_120000.png"),
        ("testers_results", .arr [JVal.obj [("tester", .str "Jason"),
          ("biography", .str "General UI and UX expert"),
          ("issues", .arr [])]])])
    ∧ (writtenDoc (checkSelenium envHappy argsSaveOut)).map JVal.isArr = some false :=
  ⟨rfl, rfl⟩

/-- C2 amended: with `save_to_file=true`, a truthy `output_dir`, a working
file system and a vision pipeline that completes, the Playwright binding
loads prior results from the bare output file name in the current working
directory (here: absent), appends the new CheckRecord and writes a
one-element JSON array to `{output_dir}/{name}` whose single record has one
`testers_results` entry per selected tester; the Selenium binding writes the
bare CheckRecord object (no array, no append) to the same path. -/
theorem c2_amended_persistence (env : CheckEnv) (args : CheckArgs)
    (img page_text : String)
    (hsave : args.save_to_file = true)
    (hdir : pyTruthy args.output_dir = true)
    (hcr : args.customRulesIsDict ≠ some false)
    (hshot : env.screenshotCapture = none)
    (himg : env.readShot = .ok img)
    (htext : env.evalText = .ok page_text)
    (hfuel : 1 ≤ env.maxRetries)
    (hnet : ∀ i k, netBenign env.jsonLoads (env.net i k) = true)
    (hmk : env.makedirsOut = none)
    (hw : env.writeOut = none)
    (hprior : env.readFs (outputFileName args.label env.tsSave) = .absent) :
    writtenPath (checkPlaywright env args) =
      some (joinPath (args.output_dir.getD "") (outputFileName args.label env.tsSave))
    ∧ writtenSingleRecordLen (checkPlaywright env args) =
        some (selectTesters env.catalog args.testers).length
    ∧ writtenPath (checkSelenium env args) =
        some (joinPath (args.output_dir.getD "") (outputFileName args.label env.tsSave))
    ∧ writtenNonArrRecordLen (checkSelenium env args) =
        some (selectTesters env.catalog args.testers).length := by
  rcases runTesters_ok env args img page_text hfuel hnet
    (selectTesters env.catalog args.testers) 0 with ⟨frs, hrun, hlen, hben⟩
  rcases aggregateIssues_ok env.jsonLoads frs [] hben with ⟨allI, hagg⟩
  have hsaveP := savePlaywright_fresh env args
    (mkCheckRecord env.tsShot env.pageUrl (screenshotPath env.tsShot) frs)
    hsave hdir hmk hw hprior
  have hsaveS := saveSelenium_fresh env args
    (mkCheckRecord env.tsShot env.pageUrl (screenshotPath env.tsShot) frs)
    hsave hdir hmk hw
  have hbodyP : checkBodyP env args =
      .ok ({ timestamp := env.tsRet, url := env.pageUrl, bugs := allI,
             raw_response := mkCheckRecord env.tsShot env.pageUrl
               (screenshotPath env.tsShot) frs,
             profile := args.profile_search.getD "default",
             output_file := some (joinPath (args.output_dir.getD "")
               (outputFileName args.label env.tsSave)) },
           some (joinPath (args.output_dir.getD "") (outputFileName args.label env.tsSave),
                 .arr [mkCheckRecord env.tsShot env.pageUrl
                   (screenshotPath env.tsShot) frs])) := by
    simp only [checkBodyP, hshot, himg, htext, if_neg hcr, hrun, hagg, hsaveP]
  have hbodyS : checkBodyS env args =
      .ok ({ timestamp := env.tsRet, url := env.pageUrl, bugs := allI,
             raw_response := mkCheckRecord env.tsShot env.pageUrl
               (screenshotPath env.tsShot) frs,
             profile := args.profile_search.getD "default",
             output_file := some (joinPath (args.output_dir.getD "")
               (outputFileName args.label env.tsSave)) },
           some (joinPath (args.output_dir.getD "") (outputFileName args.label env.tsSave),
                 mkCheckRecord env.tsShot env.pageUrl (screenshotPath env.tsShot) frs)) := by
    simp only [checkBodyS, hshot, himg, htext, if_neg hcr, hrun, hagg, hsaveS]
  refine ⟨?_, ?_, ?_, ?_⟩
  · simp [checkPlaywright, hbodyP, writtenPath, writtenFile]
  · rw [← hlen]
    simp [checkPlaywright, hbodyP, writtenSingleRecordLen, writtenDoc, writtenFile,
      testersResultsLen_mkCheckRecord]
  · simp [checkSelenium, hbodyS, writtenPath, writtenFile]
  · rw [← hlen]
    have hisarr : JVal.isArr (mkCheckRecord env.tsShot env.pageUrl
        (screenshotPath env.tsShot) frs) = false := rfl
    simp [checkSelenium, hbodyS, writtenNonArrRecordLen, writtenDoc, writtenFile,
      hisarr, testersResultsLen_mkCheckRecord]

/-- C2 witness: the amended theorem at the concrete happy-path fixture. -/
theorem c2_amended_persistence_witness :
    writtenPath (checkPlaywright envHappy argsSaveOut) =
      some "out/ai_checks_20250101_120001.json"
    ∧ writtenSingleRecordLen (checkPlaywright envHappy argsSaveOut) = some 1
    ∧ writtenPath (checkSelenium envHappy argsSaveOut) =
      some "out/ai_checks_20250101_120001.json"
    ∧ writtenNonArrRecordLen (checkSelenium envHappy argsSaveOut) = some 1 :=
  c2_amended_persistence envHappy argsSaveOut "aW1hZ2U=" "Example Domain"
    rfl rfl (by decide) rfl rfl rfl (by decide) (fun _ _ => rfl) rfl rfl rfl
